import Mathlib

/-!
Verification of the task-management application in this repository
(two near-identical copies: Desktop/django-taskify and Desktop/taskify).

The embedding translates the Python/Django source into executable Lean
definitions:
* `Task` is the persisted record (the model module itself is not in the
  source tree; its fields and defaults are modelled from the spec and are
  exercised by tasks/tests.py).
* The Django framework pieces the views call (`login_required`,
  `get_object_or_404`, the paginator, ModelForm validation) are embedded
  with their documented Django semantics.
* Each view function of tasks/views.py is translated one-to-one, in a
  namespace per application copy.

The store is a list of rows; every handler maps a request to a response
plus the resulting store.
-/

namespace Tasks

/-- Lexicographic comparison of character lists by code point, the order a
binary collation gives to the stored titles. -/
def lexLe : List Char → List Char → Bool
  | [], _ => true
  | _ :: _, [] => false
  | a :: as, b :: bs =>
    if a < b then true else if b < a then false else lexLe as bs

theorem lexLe_total : ∀ as bs : List Char, lexLe as bs = true ∨ lexLe bs as = true
  | [], _ => Or.inl rfl
  | _ :: _, [] => Or.inr rfl
  | a :: as, b :: bs => by
    rcases lt_trichotomy a b with h | h | h
    · left; simp [lexLe, h]
    · subst h
      rcases lexLe_total as bs with ih | ih
      · left; simp [lexLe, lt_irrefl, ih]
      · right; simp [lexLe, lt_irrefl, ih]
    · right; simp [lexLe, h]

theorem lexLe_trans : ∀ as bs cs : List Char,
    lexLe as bs = true → lexLe bs cs = true → lexLe as cs = true
  | [], _, _, _, _ => rfl
  | _ :: _, [], _, h, _ => by simp [lexLe] at h
  | _ :: _, _ :: _, [], _, h => by simp [lexLe] at h
  | a :: as, b :: bs, c :: cs, h1, h2 => by
    by_cases hab : a < b
    · by_cases hbc : b < c
      · simp [lexLe, lt_trans hab hbc]
      · by_cases hcb : c < b
        · simp [lexLe, hbc, hcb] at h2
        · have hbc2 : b = c := le_antisymm (not_lt.mp hcb) (not_lt.mp hbc)
          subst hbc2
          simp [lexLe, hab]
    · by_cases hba : b < a
      · simp [lexLe, hab, hba] at h1
      · have hab2 : a = b := le_antisymm (not_lt.mp hba) (not_lt.mp hab)
        subst hab2
        by_cases hac : a < c
        · simp [lexLe, hac]
        · by_cases hca : c < a
          · simp [lexLe, hac, hca] at h2
          · have hac2 : a = c := le_antisymm (not_lt.mp hca) (not_lt.mp hac)
            subst hac2
            simp [lexLe, lt_irrefl] at h1 h2 ⊢
            exact lexLe_trans as bs cs h1 h2

/-- Character-wise lower casing, embedding the case folding used by the
icontains lookup of the ORM. -/
def lowerChars (l : List Char) : List Char := l.map Char.toLower

/-- Embeds the Django ORM lookup field__icontains value: case-insensitive
substring containment. -/
def icontains (hay needle : String) : Bool :=
  decide (lowerChars needle.toList <:+: lowerChars hay.toList)

/-- Embeds Python str.strip / Django form-field whitespace stripping:
leading and trailing whitespace removed. -/
def pyStrip (s : String) : String :=
  String.mk (((s.toList.dropWhile Char.isWhitespace).reverse.dropWhile
    Char.isWhitespace).reverse)

/-- Modelled from the spec: the Task model (tasks/models.py is not under
the source tree; only its forms, views and tests are).  Fields per the
spec data model and tasks/tests.py: an opaque unique identifier, the
owning user, a required title, an optional description defaulting to the
empty string, an optional due date, and a completion flag defaulting to
false.  User identities and dates are represented by naturals. -/
structure Task where
  id : Nat
  user : Nat
  title : String
  description : String
  due_date : Option Nat
  is_completed : Bool
deriving DecidableEq, Repr

/-- Ordering used by order_by title: lexicographic ascending on the
title. -/
def titleLe (a b : Task) : Prop := lexLe a.title.toList b.title.toList = true

instance : DecidableRel titleLe := fun a b =>
  inferInstanceAs (Decidable (lexLe a.title.toList b.title.toList = true))

instance : IsTotal Task titleLe :=
  ⟨fun a b => lexLe_total a.title.toList b.title.toList⟩

instance : IsTrans Task titleLe :=
  ⟨fun a b c => lexLe_trans a.title.toList b.title.toList c.title.toList⟩

/-- Comparison of optional due dates, ascending with null dates first
(the order the backing database gives to ORDER BY due_date ASC). -/
def optNatLe (a b : Option Nat) : Bool :=
  match a, b with
  | none, _ => true
  | some _, none => false
  | some x, some y => decide (x ≤ y)

theorem optNatLe_total : ∀ a b : Option Nat, optNatLe a b = true ∨ optNatLe b a = true
  | none, _ => Or.inl rfl
  | some _, none => Or.inr rfl
  | some x, some y => by simpa [optNatLe] using Nat.le_total x y

theorem optNatLe_trans : ∀ a b c : Option Nat,
    optNatLe a b = true → optNatLe b c = true → optNatLe a c = true
  | none, _, _, _, _ => rfl
  | some _, none, _, h, _ => by simp [optNatLe] at h
  | some _, some _, none, _, h => by simp [optNatLe] at h
  | some x, some y, some z, h1, h2 => by
    simp [optNatLe] at h1 h2 ⊢
    omega

/-- Ordering used by order_by due_date. -/
def dueDateLe (a b : Task) : Prop := optNatLe a.due_date b.due_date = true

instance : DecidableRel dueDateLe := fun a b =>
  inferInstanceAs (Decidable (optNatLe a.due_date b.due_date = true))

instance : IsTotal Task dueDateLe :=
  ⟨fun a b => optNatLe_total a.due_date b.due_date⟩

instance : IsTrans Task dueDateLe :=
  ⟨fun a b c => optNatLe_trans a.due_date b.due_date c.due_date⟩

/-- The page object the paginator hands to the list template: the current
page items, its 1-based number, the total page count, and the
next/previous flags. -/
structure PageObj where
  object_list : List Task
  number : Nat
  num_pages : Nat
  has_next : Bool
  has_previous : Bool
deriving DecidableEq, Repr

/-- Outward result of a request: a redirect, a rendered template (for the
list page, together with its page object), a not-found response, a
forbidden response (part of the HTTP response space; never produced by
this application), or a server error. -/
inductive Response where
  | redirect (target : String)
  | render (template : String)
  | renderList (template : String) (page_obj : PageObj)
  | notFound
  | forbidden
  | serverError
deriving DecidableEq, Repr

/-- The page query parameter as the view receives it: absent, present but
not an integer literal, or an integer. -/
inductive PageParam where
  | missing
  | notInt
  | int (k : Int)
deriving DecidableEq, Repr

/-- Embeds django.core.paginator.Paginator.num_pages: the ceiling of
count / per_page, and at least one page even for an empty list. -/
def paginator_num_pages (count per : Nat) : Nat := (max 1 count + per - 1) / per

/-- Embeds django.core.paginator.Paginator.get_page: a missing or
non-integer page number yields the first page, an integer below 1 or
above the page count yields the last page, and a valid number yields that
page. -/
def get_page (l : List Task) (per : Nat) (p : PageParam) : PageObj :=
  let np := paginator_num_pages l.length per
  let n : Nat :=
    match p with
    | .missing => 1
    | .notInt => 1
    | .int k => if k < 1 then np else if (np : Int) < k then np else k.toNat
  { object_list := (l.drop ((n - 1) * per)).take per
    number := n
    num_pages := np
    has_next := decide (n < np)
    has_previous := decide (1 < n) }

/-- Embeds django.contrib.auth.decorators.login_required: an
unauthenticated request is redirected to the login entry point without
running the view body; an authenticated one runs the body with the
caller's identity. -/
def login_required (auth : Option Nat) (store : List Task)
    (view : Nat → List Task → Response × List Task) : Response × List Task :=
  match auth with
  | none => (.redirect "login", store)
  | some u => view u store

/-- Embeds django.shortcuts.get_object_or_404(Task, id=task_id,
user=request.user): the task with the given identifier inside the
caller's ownership scope, if any. -/
def get_object_or_404 (store : List Task) (task_id u : Nat) : Option Task :=
  store.find? fun t => t.id == task_id && t.user == u

/-- Raw submitted form data for the three bound fields of TaskForm
(tasks/forms.py, fields = [title, description, due_date]), plus any
owner value a client may submit; the form never binds the latter. -/
structure FormData where
  title : String
  description : String
  due_date : Option Nat
  user_field : Option Nat
deriving DecidableEq, Repr

/-- Validated field values of a successful TaskForm validation. -/
structure CleanedData where
  title : String
  description : String
  due_date : Option Nat
deriving DecidableEq, Repr

/-- Modelled from the spec: TaskForm validation (tasks/forms.py binds
fields [title, description, due_date]; the required-title rule comes from
the Task model, which is not under the source tree).  The title is
required and must be non-empty after stripping; description and due date
are optional.  Failure reports the erroneous field names. -/
def TaskForm.clean (d : FormData) : Except (List String) CleanedData :=
  if pyStrip d.title = "" then Except.error ["title"]
  else Except.ok { title := pyStrip d.title
                   description := d.description
                   due_date := d.due_date }

/-- Embeds the autoincrement primary key: one more than the largest
identifier in the store. -/
def freshId (s : List Task) : Nat := (s.map fun t => t.id).foldr max 0 + 1

namespace DjangoTaskify

/-- Desktop/django-taskify/tasks/views.py task_list, lines 16-35: the
query composition before pagination.  Owner restriction, then the search
filter (only when the query string is non-empty), then the status
filter, then ordering. -/
def task_list_tasks (store : List Task) (user : Nat)
    (filter_status sort_option search_query : String) : List Task :=
  let tasks := store.filter fun t => t.user == user
  let tasks :=
    if search_query ≠ "" then
      tasks.filter fun t =>
        icontains t.title search_query || icontains t.description search_query
    else tasks
  let tasks :=
    if filter_status = "completed" then tasks.filter fun t => t.is_completed == true
    else if filter_status = "pending" then tasks.filter fun t => t.is_completed == false
    else tasks
  if sort_option = "title" then List.insertionSort titleLe tasks
  else List.insertionSort dueDateLe tasks

/-- Desktop/django-taskify/tasks/views.py task_list, lines 37-40: the page
object placed in the rendering context (page size 5). -/
def task_list (store : List Task) (user : Nat)
    (filter_status sort_option search_query : String) (page : PageParam) : PageObj :=
  get_page (task_list_tasks store user filter_status sort_option search_query) 5 page

/-- Desktop/django-taskify/tasks/views.py task_list, lines 10-48, as a
request handler: login_required wraps the read-only rendering of the
composed page. -/
def task_list_view (auth : Option Nat)
    (filter_status sort_option search_query : String) (page : PageParam)
    (store : List Task) : Response × List Task :=
  login_required auth store fun user s =>
    (.renderList "tasks/task_list.html"
      (task_list s user filter_status sort_option search_query page), s)

/-- Desktop/django-taskify/tasks/views.py add_task, lines 51-63: on a
valid POST the cleaned fields are saved with the owner taken from the
authenticated caller; otherwise the form page is (re)rendered and the
store is untouched. -/
def add_task (auth : Option Nat) (isPost : Bool) (data : FormData)
    (store : List Task) : Response × List Task :=
  login_required auth store fun u s =>
    if isPost then
      match TaskForm.clean data with
      | .ok c =>
        (.redirect "task_list",
          s ++ [{ id := freshId s, user := u, title := c.title,
                  description := c.description, due_date := c.due_date,
                  is_completed := false }])
      | .error _ => (.render "tasks/task_form.html", s)
    else (.render "tasks/task_form.html", s)

/-- Desktop/django-taskify/tasks/views.py edit_task, lines 65-76: the task
is fetched inside the caller's ownership scope (404 otherwise); a valid
POST updates the three bound fields of that row and nothing else. -/
def edit_task (auth : Option Nat) (task_id : Nat) (isPost : Bool)
    (data : FormData) (store : List Task) : Response × List Task :=
  login_required auth store fun u s =>
    match get_object_or_404 s task_id u with
    | none => (.notFound, s)
    | some _ =>
      if isPost then
        match TaskForm.clean data with
        | .ok c =>
          (.redirect "task_list",
            s.map fun t =>
              if t.id == task_id then
                { t with title := c.title, description := c.description,
                         due_date := c.due_date }
              else t)
        | .error _ => (.render "tasks/edit_task.html", s)
      else (.render "tasks/edit_task.html", s)

/-- Desktop/django-taskify/tasks/views.py delete_task, lines 78-85: the
task is fetched inside the caller's ownership scope (404 otherwise); a
POST removes the row, a GET renders the confirmation page. -/
def delete_task (auth : Option Nat) (task_id : Nat) (isPost : Bool)
    (store : List Task) : Response × List Task :=
  login_required auth store fun u s =>
    match get_object_or_404 s task_id u with
    | none => (.notFound, s)
    | some _ =>
      if isPost then (.redirect "task_list", s.filter fun t => !(t.id == task_id))
      else (.render "tasks/delete_task.html", s)

/-- Desktop/django-taskify/tasks/views.py toggle_task_completion, lines
88-95: the task is fetched inside the caller's ownership scope (404
otherwise) and saved back with the completion flag negated. -/
def toggle_task_completion (auth : Option Nat) (task_id : Nat)
    (store : List Task) : Response × List Task :=
  login_required auth store fun u s =>
    match get_object_or_404 s task_id u with
    | none => (.notFound, s)
    | some _ =>
      (.redirect "task_list",
        s.map fun t =>
          if t.id == task_id then { t with is_completed := !t.is_completed } else t)

end DjangoTaskify

namespace Taskify

/-- Desktop/taskify/tasks/views.py task_list, lines 16-35 (textually the
same pipeline as the django-taskify copy). -/
def task_list_tasks (store : List Task) (user : Nat)
    (filter_status sort_option search_query : String) : List Task :=
  let tasks := store.filter fun t => t.user == user
  let tasks :=
    if search_query ≠ "" then
      tasks.filter fun t =>
        icontains t.title search_query || icontains t.description search_query
    else tasks
  let tasks :=
    if filter_status = "completed" then tasks.filter fun t => t.is_completed == true
    else if filter_status = "pending" then tasks.filter fun t => t.is_completed == false
    else tasks
  if sort_option = "title" then List.insertionSort titleLe tasks
  else List.insertionSort dueDateLe tasks

/-- Desktop/taskify/tasks/views.py task_list, lines 37-40. -/
def task_list (store : List Task) (user : Nat)
    (filter_status sort_option search_query : String) (page : PageParam) : PageObj :=
  get_page (task_list_tasks store user filter_status sort_option search_query) 5 page

/-- Desktop/taskify/tasks/views.py task_list, lines 10-48, as a request
handler. -/
def task_list_view (auth : Option Nat)
    (filter_status sort_option search_query : String) (page : PageParam)
    (store : List Task) : Response × List Task :=
  login_required auth store fun user s =>
    (.renderList "tasks/task_list.html"
      (task_list s user filter_status sort_option search_query page), s)

/-- Desktop/taskify/tasks/views.py add_task, lines 51-63. -/
def add_task (auth : Option Nat) (isPost : Bool) (data : FormData)
    (store : List Task) : Response × List Task :=
  login_required auth store fun u s =>
    if isPost then
      match TaskForm.clean data with
      | .ok c =>
        (.redirect "task_list",
          s ++ [{ id := freshId s, user := u, title := c.title,
                  description := c.description, due_date := c.due_date,
                  is_completed := false }])
      | .error _ => (.render "tasks/task_form.html", s)
    else (.render "tasks/task_form.html", s)

/-- Desktop/taskify/tasks/views.py edit_task, lines 65-76 (this copy
renders tasks/task_form.html for the edit page). -/
def edit_task (auth : Option Nat) (task_id : Nat) (isPost : Bool)
    (data : FormData) (store : List Task) : Response × List Task :=
  login_required auth store fun u s =>
    match get_object_or_404 s task_id u with
    | none => (.notFound, s)
    | some _ =>
      if isPost then
        match TaskForm.clean data with
        | .ok c =>
          (.redirect "task_list",
            s.map fun t =>
              if t.id == task_id then
                { t with title := c.title, description := c.description,
                         due_date := c.due_date }
              else t)
        | .error _ => (.render "tasks/task_form.html", s)
      else (.render "tasks/task_form.html", s)

/-- Desktop/taskify/tasks/views.py delete_task, lines 78-85. -/
def delete_task (auth : Option Nat) (task_id : Nat) (isPost : Bool)
    (store : List Task) : Response × List Task :=
  login_required auth store fun u s =>
    match get_object_or_404 s task_id u with
    | none => (.notFound, s)
    | some _ =>
      if isPost then (.redirect "task_list", s.filter fun t => !(t.id == task_id))
      else (.render "tasks/task_confirm_delete.html", s)

/-- Desktop/taskify/tasks/views.py toggle_task, lines 87-93: decorated
with login_required, flips the completion flag of the caller's task. -/
def toggle_task (auth : Option Nat) (task_id : Nat)
    (store : List Task) : Response × List Task :=
  login_required auth store fun u s =>
    match get_object_or_404 s task_id u with
    | none => (.notFound, s)
    | some _ =>
      (.redirect "task_list",
        s.map fun t =>
          if t.id == task_id then { t with is_completed := !t.is_completed } else t)

/-- Desktop/taskify/tasks/views.py toggle_task_completion, lines 107-111.
This view has no login_required decorator: an unauthenticated request
runs the body, where the owner-scoped lookup receives the anonymous
identity and the ORM rejects filtering the user foreign key by an
anonymous user, so the request errors instead of redirecting to login. -/
def toggle_task_completion (auth : Option Nat) (pk : Nat)
    (store : List Task) : Response × List Task :=
  match auth with
  | none => (.serverError, store)
  | some u =>
    match get_object_or_404 store pk u with
    | none => (.notFound, store)
    | some _ =>
      (.redirect "task_list",
        store.map fun t =>
          if t.id == pk then { t with is_completed := !t.is_completed } else t)

end Taskify

/-- Builds a task row. -/
def mkTask (i u : Nat) (ti de : String) (du : Option Nat) (c : Bool) : Task :=
  { id := i, user := u, title := ti, description := de, due_date := du,
    is_completed := c }

/-- Ten tasks of user 1 with ascending due dates, the pagination scenario
of the spec and of tasks/tests.py. -/
def storeTen : List Task :=
  [mkTask 1 1 "Task 1" "Description 1" (some 1) false,
   mkTask 2 1 "Task 2" "Description 2" (some 2) false,
   mkTask 3 1 "Task 3" "Description 3" (some 3) false,
   mkTask 4 1 "Task 4" "Description 4" (some 4) false,
   mkTask 5 1 "Task 5" "Description 5" (some 5) false,
   mkTask 6 1 "Task 6" "Description 6" (some 6) false,
   mkTask 7 1 "Task 7" "Description 7" (some 7) false,
   mkTask 8 1 "Task 8" "Description 8" (some 8) false,
   mkTask 9 1 "Task 9" "Description 9" (some 9) false,
   mkTask 10 1 "Task 10" "Description 10" (some 10) false]

/-- The mixed store of the spec scenarios: one completed and two pending
tasks of user 1 (titles as in tasks/tests.py). -/
def storeMix : List Task :=
  [mkTask 1 1 "Completed Task" "This is completed" none true,
   mkTask 2 1 "Pending Task" "This is pending" none false,
   mkTask 3 1 "Another Pending" "Also pending" none false]

/-- A store holding a single task owned by user 2; user 1 owns nothing
in it. -/
def storeOther : List Task :=
  [mkTask 1 2 "Test Task" "Test Description" (some 7) false]

/-- Valid submitted form data, including a client-chosen owner value that
the form never binds. -/
def formNew : FormData :=
  { title := "New Task", description := "New Description", due_date := some 5,
    user_field := some 9 }

/-- Submitted form data whose title is blank after stripping. -/
def formBlankTitle : FormData :=
  { title := "   ", description := "Missing title", due_date := none,
    user_field := none }

/-- Membership in the composed (pre-pagination) list of the django-taskify
task_list: exactly the caller's tasks that pass the search condition (when
a query is given) and the status condition. -/
theorem mem_task_list_tasks (store : List Task) (u : Nat) (fs so q : String)
    (t : Task) :
    t ∈ DjangoTaskify.task_list_tasks store u fs so q ↔
      t ∈ store ∧ t.user = u ∧
      (q = "" ∨ (icontains t.title q || icontains t.description q) = true) ∧
      (fs = "completed" → t.is_completed = true) ∧
      (fs = "pending" → t.is_completed = false) := by
  unfold DjangoTaskify.task_list_tasks
  by_cases hso : so = "title" <;>
  by_cases hq : q = "" <;>
  by_cases h1 : fs = "completed" <;>
  by_cases h2 : fs = "pending" <;>
    simp_all [List.mem_insertionSort, List.mem_filter] <;> tauto

/-- An unrecognized status filter composes the same list as the value
all. -/
theorem task_list_tasks_unrecognized (store : List Task) (u : Nat)
    (so q fs : String) (h1 : fs ≠ "completed") (h2 : fs ≠ "pending") :
    DjangoTaskify.task_list_tasks store u fs so q =
      DjangoTaskify.task_list_tasks store u "all" so q := by
  unfold DjangoTaskify.task_list_tasks
  simp [h1, h2]

/-- The page number get_page picks for an integer page parameter: an
in-range number itself, anything out of range the last page. -/
theorem get_page_number_int (l : List Task) (k : Int) :
    (get_page l 5 (PageParam.int k)).number =
      if k < 1 ∨ (paginator_num_pages l.length 5 : Int) < k
      then paginator_num_pages l.length 5 else k.toNat := by
  unfold get_page
  by_cases h1 : k < 1 <;>
    by_cases h2 : (paginator_num_pages l.length 5 : Int) < k <;>
    simp [h1, h2]

/-- The page number get_page picks is always within the valid range. -/
theorem get_page_number_bounds (l : List Task) (p : PageParam) :
    1 ≤ (get_page l 5 p).number ∧
      (get_page l 5 p).number ≤ paginator_num_pages l.length 5 := by
  have hnp : 1 ≤ paginator_num_pages l.length 5 := by
    unfold paginator_num_pages
    omega
  cases p with
  | missing => exact ⟨le_refl 1, hnp⟩
  | notInt => exact ⟨le_refl 1, hnp⟩
  | int k =>
    rw [get_page_number_int]
    split_ifs with h
    · exact ⟨hnp, le_refl _⟩
    · push_neg at h
      constructor <;> omega

/-- Claim C6: for every owner and every non-empty search text, the list
operation keeps exactly the tasks (within the owner and status scope,
given by the same composition with the empty query) whose title or
description contains the text as a case-insensitive substring; a text
matching no task of the owner yields the empty result, not an error. -/
theorem search_is_icontains_over_title_or_description
    (store : List Task) (u : Nat) (fs so q : String) (t : Task) (hq : q ≠ "") :
    (t ∈ DjangoTaskify.task_list_tasks store u fs so q ↔
      t ∈ DjangoTaskify.task_list_tasks store u fs so "" ∧
        (icontains t.title q || icontains t.description q) = true) ∧
    ((∀ t2 ∈ store, t2.user = u →
        (icontains t2.title q || icontains t2.description q) = false) →
      DjangoTaskify.task_list_tasks store u fs so q = []) := by
  constructor
  · rw [mem_task_list_tasks, mem_task_list_tasks]
    simp [hq]
    tauto
  · intro h
    rw [List.eq_nil_iff_forall_not_mem]
    intro t2 ht2
    rw [mem_task_list_tasks] at ht2
    rcases ht2 with ⟨hs, hu, hq2, _⟩
    rcases hq2 with h0 | hc
    · exact hq h0
    · rw [h t2 hs hu] at hc
      cases hc

/-- Witness for the search characterization: the query zz matches no task
of the mixed store, so the composed list is empty. -/
theorem search_is_icontains_witness :
    DjangoTaskify.task_list_tasks storeMix 1 "all" "due_date" "zz" = [] :=
  (search_is_icontains_over_title_or_description storeMix 1 "all" "due_date"
    "zz" (mkTask 1 1 "" "" none true) (by decide)).2 (by decide)

/-- Claim C7: the status filter restricts to completed tasks for the value
completed, to pending tasks for the value pending, and restricts nothing
for all or any unrecognized value; over one completed and two pending
tasks the completed filter returns exactly one item. -/
theorem status_filter_spec (store : List Task) (u : Nat) (so q fs : String)
    (t : Task) :
    (t ∈ DjangoTaskify.task_list_tasks store u "completed" so q ↔
      t ∈ DjangoTaskify.task_list_tasks store u "all" so q ∧
        t.is_completed = true) ∧
    (t ∈ DjangoTaskify.task_list_tasks store u "pending" so q ↔
      t ∈ DjangoTaskify.task_list_tasks store u "all" so q ∧
        t.is_completed = false) ∧
    (fs ≠ "completed" → fs ≠ "pending" →
      DjangoTaskify.task_list_tasks store u fs so q =
        DjangoTaskify.task_list_tasks store u "all" so q) ∧
    (DjangoTaskify.task_list_tasks storeMix 1 "completed" "due_date" "").length
      = 1 := by
  refine ⟨?_, ?_, task_list_tasks_unrecognized store u so q fs, by decide⟩
  · rw [mem_task_list_tasks, mem_task_list_tasks]
    simp
    tauto
  · rw [mem_task_list_tasks, mem_task_list_tasks]
    simp
    tauto

/-- Witness for the status filter: the completed filter returns exactly
one of the three mixed tasks, and an unrecognized value composes the same
list as all. -/
theorem status_filter_witness :
    (DjangoTaskify.task_list_tasks storeMix 1 "completed" "due_date" "").length
        = 1 ∧
      DjangoTaskify.task_list_tasks storeMix 1 "bogus" "due_date" "" =
        DjangoTaskify.task_list_tasks storeMix 1 "all" "due_date" "" :=
  ⟨(status_filter_spec storeMix 1 "due_date" "" "bogus"
      (mkTask 1 1 "" "" none true)).2.2.2,
   (status_filter_spec storeMix 1 "due_date" "" "bogus"
      (mkTask 1 1 "" "" none true)).2.2.1 (by decide) (by decide)⟩

/-- Claim C8: the sort key title orders the composed list lexicographically
ascending by title, any other key orders it ascending by due date (nulls
first); both orders hold the same tasks; over the three mixed titles the
title order is Another Pending, Completed Task, Pending Task. -/
theorem sort_spec (store : List Task) (u : Nat) (fs q so : String)
    (hso : so ≠ "title") :
    List.Sorted titleLe (DjangoTaskify.task_list_tasks store u fs "title" q) ∧
    List.Sorted dueDateLe (DjangoTaskify.task_list_tasks store u fs so q) ∧
    List.Perm (DjangoTaskify.task_list_tasks store u fs "title" q)
      (DjangoTaskify.task_list_tasks store u fs so q) ∧
    (DjangoTaskify.task_list_tasks storeMix 1 "all" "title" "").map
        (fun t => t.title) =
      ["Another Pending", "Completed Task", "Pending Task"] := by
  refine ⟨?_, ?_, ?_, by decide⟩
  · unfold DjangoTaskify.task_list_tasks
    simp only [if_pos rfl]
    exact List.sorted_insertionSort titleLe _
  · unfold DjangoTaskify.task_list_tasks
    simp only [if_neg hso]
    exact List.sorted_insertionSort dueDateLe _
  · unfold DjangoTaskify.task_list_tasks
    simp only [if_pos rfl, if_neg hso]
    exact (List.perm_insertionSort titleLe _).trans
      (List.perm_insertionSort dueDateLe _).symm

/-- Witness for the ordering: the three mixed titles sorted by the title
key. -/
theorem sort_spec_witness :
    (DjangoTaskify.task_list_tasks storeMix 1 "all" "title" "").map
        (fun t => t.title) =
      ["Another Pending", "Completed Task", "Pending Task"] :=
  (sort_spec storeMix 1 "all" "" "due_date" (by decide)).2.2.2

/-- Claim C5 counterexample: over the ten tasks there are two pages; page
number 0 is out of range below and its nearest valid page is the first,
yet the code returns the last page. -/
theorem page_below_range_returns_last :
    (DjangoTaskify.task_list storeTen 1 "all" "due_date" ""
        (PageParam.int 0)).num_pages = 2 ∧
    (DjangoTaskify.task_list storeTen 1 "all" "due_date" ""
        (PageParam.int 0)).number = 2 ∧
    (DjangoTaskify.task_list storeTen 1 "all" "due_date" ""
        (PageParam.int 0)).number ≠ 1 := by
  decide

/-- Claim C5 (amended): pagination uses a fixed page size of 5 with
1-based page numbers and an out-of-range page never errors: a missing or
non-integer page value yields the first page, and an integer page value
out of range — below 1 as well as above the last page — yields the last
page (so a too-small page number lands on the last page, not the nearest
valid one); with ten tasks page 1 returns items 1-5, page 2 returns items
6-10, and page 3 clamps to page 2. -/
theorem pagination_spec (store : List Task) (u : Nat) (fs so q : String)
    (p : PageParam) (k : Int) :
    (DjangoTaskify.task_list store u fs so q p).num_pages =
      paginator_num_pages (DjangoTaskify.task_list_tasks store u fs so q).length
        5 ∧
    (DjangoTaskify.task_list store u fs so q PageParam.missing).number = 1 ∧
    (DjangoTaskify.task_list store u fs so q PageParam.notInt).number = 1 ∧
    ((DjangoTaskify.task_list store u fs so q (PageParam.int k)).number =
      if k < 1 ∨
          (paginator_num_pages
            (DjangoTaskify.task_list_tasks store u fs so q).length 5 : Int) < k
      then paginator_num_pages
        (DjangoTaskify.task_list_tasks store u fs so q).length 5
      else k.toNat) ∧
    1 ≤ (DjangoTaskify.task_list store u fs so q p).number ∧
    (DjangoTaskify.task_list store u fs so q p).number ≤
      paginator_num_pages (DjangoTaskify.task_list_tasks store u fs so q).length
        5 ∧
    (DjangoTaskify.task_list store u fs so q p).object_list =
      ((DjangoTaskify.task_list_tasks store u fs so q).drop
        (((DjangoTaskify.task_list store u fs so q p).number - 1) * 5)).take 5 ∧
    (DjangoTaskify.task_list storeTen 1 "all" "due_date" ""
        (PageParam.int 1)).object_list = storeTen.take 5 ∧
    (DjangoTaskify.task_list storeTen 1 "all" "due_date" ""
        (PageParam.int 2)).object_list = storeTen.drop 5 ∧
    (DjangoTaskify.task_list storeTen 1 "all" "due_date" ""
        (PageParam.int 3)).number = 2 := by
  refine ⟨rfl, rfl, rfl,
    get_page_number_int (DjangoTaskify.task_list_tasks store u fs so q) k,
    (get_page_number_bounds (DjangoTaskify.task_list_tasks store u fs so q) p).1,
    (get_page_number_bounds (DjangoTaskify.task_list_tasks store u fs so q) p).2,
    rfl, by decide, by decide, by decide⟩

/-- Claim C1: for an authenticated user and a task identifier that does
not resolve within the user's ownership scope — whether the row belongs
to another user or does not exist at all — edit, delete and
toggle-complete (in both application copies) all answer the same
not-found response with the store untouched, and never the distinct
forbidden response. -/
theorem cross_owner_is_not_found (u1 task_id : Nat) (isPost : Bool)
    (d : FormData) (store : List Task)
    (h : get_object_or_404 store task_id u1 = none) :
    DjangoTaskify.edit_task (some u1) task_id isPost d store =
      (Response.notFound, store) ∧
    DjangoTaskify.delete_task (some u1) task_id isPost store =
      (Response.notFound, store) ∧
    DjangoTaskify.toggle_task_completion (some u1) task_id store =
      (Response.notFound, store) ∧
    Taskify.edit_task (some u1) task_id isPost d store =
      (Response.notFound, store) ∧
    Taskify.delete_task (some u1) task_id isPost store =
      (Response.notFound, store) ∧
    Taskify.toggle_task (some u1) task_id store = (Response.notFound, store) ∧
    Taskify.toggle_task_completion (some u1) task_id store =
      (Response.notFound, store) ∧
    Response.notFound ≠ Response.forbidden := by
  unfold DjangoTaskify.edit_task DjangoTaskify.delete_task
    DjangoTaskify.toggle_task_completion Taskify.edit_task Taskify.delete_task
    Taskify.toggle_task Taskify.toggle_task_completion login_required
  simp [h]

/-- Witness for the not-found behavior: task 1 exists but belongs to user
2, and user 1 editing it gets not-found, exactly as for a missing
identifier. -/
theorem cross_owner_witness :
    DjangoTaskify.edit_task (some 1) 1 true formNew storeOther =
      (Response.notFound, storeOther) :=
  (cross_owner_is_not_found 1 1 true formNew storeOther (by decide)).1

/-- The id-to-owner association of a store. -/
def ownerMap (s : List Task) : List (Nat × Nat) := s.map fun t => (t.id, t.user)

/-- One edit request: the caller, the addressed task and the submitted
form data. -/
structure EditRequest where
  auth : Option Nat
  task_id : Nat
  isPost : Bool
  data : FormData

/-- Runs a sequence of edit requests against the store. -/
def applyEdits (s : List Task) : List EditRequest → List Task
  | [] => s
  | r :: rs =>
    applyEdits (DjangoTaskify.edit_task r.auth r.task_id r.isPost r.data s).2 rs

/-- A single edit request never changes which identifier belongs to which
owner. -/
theorem ownerMap_edit (a : Option Nat) (task_id : Nat) (isPost : Bool)
    (d : FormData) (s : List Task) :
    ownerMap (DjangoTaskify.edit_task a task_id isPost d s).2 = ownerMap s := by
  unfold DjangoTaskify.edit_task login_required
  cases a with
  | none => rfl
  | some u =>
    cases hfind : get_object_or_404 s task_id u with
    | none => simp [hfind]
    | some t0 =>
      cases isPost with
      | false => simp [hfind]
      | true =>
        cases hc : TaskForm.clean d with
        | error e => simp [hfind, hc]
        | ok c =>
          simp only [hfind, hc, if_true]
          unfold ownerMap
          rw [List.map_map]
          apply List.map_congr_left
          intro t _
          by_cases hid : t.id = task_id <;> simp [hid]

/-- No sequence of edit requests changes which identifier belongs to
which owner. -/
theorem ownerMap_applyEdits (rs : List EditRequest) (s : List Task) :
    ownerMap (applyEdits s rs) = ownerMap s := by
  induction rs generalizing s with
  | nil => rfl
  | cons r rs ih =>
    rw [applyEdits, ih, ownerMap_edit]

/-- Claim C2: on create the owner of the persisted task is the
authenticated caller, whatever owner value was submitted (the form never
binds one); and the id-to-owner association of the store is left
unchanged by every sequence of edit requests with any submitted field
values. -/
theorem owner_from_caller_and_edit_immutable (u : Nat) (d : FormData)
    (store : List Task) (reqs : List EditRequest) :
    (∀ t ∈ (DjangoTaskify.add_task (some u) true d store).2,
      t ∈ store ∨ t.user = u) ∧
    ownerMap (applyEdits store reqs) = ownerMap store := by
  constructor
  · intro t ht
    unfold DjangoTaskify.add_task login_required at ht
    cases hc : TaskForm.clean d with
    | error e =>
      simp [hc] at ht
      exact Or.inl ht
    | ok c =>
      simp [hc] at ht
      rcases ht with hl | hr
      · exact Or.inl hl
      · subst hr
        exact Or.inr rfl
  · exact ownerMap_applyEdits reqs store

/-- Witness for the owner rules: user 7 creates a task from data carrying
a foreign owner value, and the persisted row is owned by 7; two edit
requests leave the id-to-owner association of the store intact. -/
theorem owner_from_caller_witness :
    ((mkTask 2 7 "New Task" "New Description" (some 5) false) ∈ storeOther ∨
      (mkTask 2 7 "New Task" "New Description" (some 5) false).user = 7) ∧
    ownerMap (applyEdits storeOther
        [⟨some 2, 1, true, formNew⟩, ⟨some 2, 1, true, formBlankTitle⟩]) =
      ownerMap storeOther :=
  have h := owner_from_caller_and_edit_immutable 7 formNew storeOther
    [⟨some 2, 1, true, formNew⟩, ⟨some 2, 1, true, formBlankTitle⟩]
  ⟨h.1 (mkTask 2 7 "New Task" "New Description" (some 5) false) (by decide),
   h.2⟩

/-- Claim C3: a create submission whose title is empty after stripping
fails validation with a field-level error on title, the create view
re-renders the form, and the task store is completely unchanged — no task
persisted and the task count the same. -/
theorem empty_title_create_rejected (u : Nat) (d : FormData)
    (store : List Task) (h : pyStrip d.title = "") :
    TaskForm.clean d = Except.error ["title"] ∧
    DjangoTaskify.add_task (some u) true d store =
      (Response.render "tasks/task_form.html", store) ∧
    ((DjangoTaskify.add_task (some u) true d store).2).length = store.length := by
  have hc : TaskForm.clean d = Except.error ["title"] := by
    unfold TaskForm.clean
    rw [if_pos h]
  have h2 : DjangoTaskify.add_task (some u) true d store =
      (Response.render "tasks/task_form.html", store) := by
    unfold DjangoTaskify.add_task login_required
    simp [hc]
  exact ⟨hc, h2, by rw [h2]⟩

/-- Witness for the empty-title rejection at the blank-title form data and
the mixed store. -/
theorem empty_title_witness :
    TaskForm.clean formBlankTitle = Except.error ["title"] ∧
    DjangoTaskify.add_task (some 1) true formBlankTitle storeMix =
      (Response.render "tasks/task_form.html", storeMix) ∧
    ((DjangoTaskify.add_task (some 1) true formBlankTitle storeMix).2).length =
      storeMix.length :=
  empty_title_create_rejected 1 formBlankTitle storeMix (by decide)

/-- Claim C4 (code divergence recorded): every decorated owner-scoped view
of both copies redirects an unauthenticated request to the login entry
point with the store untouched; but toggle_task_completion of the taskify
copy carries no login_required decorator, and an unauthenticated request
to it does not redirect to login — the view body runs and the anonymous
owner-scoped lookup errors. -/
theorem unauthenticated_requests (store : List Task) (fs so q : String)
    (p : PageParam) (task_id : Nat) (isPost : Bool) (d : FormData) :
    DjangoTaskify.task_list_view none fs so q p store =
      (Response.redirect "login", store) ∧
    DjangoTaskify.add_task none isPost d store =
      (Response.redirect "login", store) ∧
    DjangoTaskify.edit_task none task_id isPost d store =
      (Response.redirect "login", store) ∧
    DjangoTaskify.delete_task none task_id isPost store =
      (Response.redirect "login", store) ∧
    DjangoTaskify.toggle_task_completion none task_id store =
      (Response.redirect "login", store) ∧
    Taskify.task_list_view none fs so q p store =
      (Response.redirect "login", store) ∧
    Taskify.add_task none isPost d store = (Response.redirect "login", store) ∧
    Taskify.edit_task none task_id isPost d store =
      (Response.redirect "login", store) ∧
    Taskify.delete_task none task_id isPost store =
      (Response.redirect "login", store) ∧
    Taskify.toggle_task none task_id store =
      (Response.redirect "login", store) ∧
    Taskify.toggle_task_completion none task_id store =
      (Response.serverError, store) ∧
    Response.serverError ≠ Response.redirect "login" :=
  ⟨rfl, rfl, rfl, rfl, rfl, rfl, rfl, rfl, rfl, rfl, rfl, by decide⟩

/-- A toggled row keeps its identifier and owner and still satisfies the
owner-scoped lookup condition, so the addressed task is found again. -/
theorem toggle_store_eq (u task_id : Nat) (store : List Task)
    (h : (store.find? fun t => t.id == task_id && t.user == u).isSome = true) :
    (DjangoTaskify.toggle_task_completion (some u) task_id store).2 =
      store.map (fun t =>
        if t.id == task_id then { t with is_completed := !t.is_completed }
        else t) := by
  unfold DjangoTaskify.toggle_task_completion login_required
  cases hfind : get_object_or_404 store task_id u with
  | none =>
    unfold get_object_or_404 at hfind
    rw [hfind] at h
    simp at h
  | some t0 => simp [hfind]

/-- Toggling a row twice gives the row back: only the completion flag is
touched and double negation restores it. -/
theorem toggle_row_involution (task_id : Nat) (t : Task) :
    (fun t2 => if t2.id == task_id
        then { t2 with is_completed := !t2.is_completed } else t2)
      ((fun t2 => if t2.id == task_id
        then { t2 with is_completed := !t2.is_completed } else t2) t) = t := by
  cases hbeq : t.id == task_id with
  | false => simp [hbeq]
  | true => simp [hbeq]

/-- The toggled store still holds a row satisfying the owner-scoped lookup
condition for the same identifier and user. -/
theorem toggled_find (u task_id : Nat) (store : List Task)
    (h : (store.find? fun t => t.id == task_id && t.user == u).isSome = true) :
    ((store.map (fun t => if t.id == task_id
          then { t with is_completed := !t.is_completed } else t)).find?
        (fun t => t.id == task_id && t.user == u)).isSome = true := by
  rw [List.find?_isSome] at h ⊢
  rcases h with ⟨t0, ht0, hp⟩
  refine ⟨(fun t => if t.id == task_id
      then { t with is_completed := !t.is_completed } else t) t0,
    List.mem_map_of_mem _ ht0, ?_⟩
  simp at hp
  rcases hp with ⟨h1, h2⟩
  simp [h1, h2]

/-- Claim C9: for a task the caller owns, applying toggle-complete twice
restores the store exactly — is_completed returns to its original value —
and one application only negates the completion flag of the addressed row,
leaving title, description, due date and owner unchanged; the taskify copy
behaves the same. -/
theorem toggle_twice_restores (u task_id : Nat) (store : List Task)
    (h : (store.find? fun t => t.id == task_id && t.user == u).isSome = true) :
    (DjangoTaskify.toggle_task_completion (some u) task_id
        (DjangoTaskify.toggle_task_completion (some u) task_id store).2).2 =
      store ∧
    (DjangoTaskify.toggle_task_completion (some u) task_id store).2 =
      store.map (fun t => if t.id == task_id
        then { t with is_completed := !t.is_completed } else t) ∧
    (Taskify.toggle_task (some u) task_id
        (Taskify.toggle_task (some u) task_id store).2).2 = store := by
  have h1 := toggle_store_eq u task_id store h
  have h2 := toggled_find u task_id store h
  have h3 := toggle_store_eq u task_id
    (store.map (fun t => if t.id == task_id
      then { t with is_completed := !t.is_completed } else t)) h2
  have hmain :
      (DjangoTaskify.toggle_task_completion (some u) task_id
        (DjangoTaskify.toggle_task_completion (some u) task_id store).2).2 =
        store := by
    rw [h1, h3, List.map_map]
    have hpoint : store.map ((fun t => if t.id == task_id
        then { t with is_completed := !t.is_completed } else t) ∘
        (fun t => if t.id == task_id
          then { t with is_completed := !t.is_completed } else t)) =
        store.map id := by
      apply List.map_congr_left
      intro t _
      exact toggle_row_involution task_id t
    rw [hpoint, List.map_id]
  exact ⟨hmain, h1, hmain⟩

/-- Witness for the toggle involution on the mixed store at its first
task. -/
theorem toggle_twice_witness :
    (DjangoTaskify.toggle_task_completion (some 1) 1
        (DjangoTaskify.toggle_task_completion (some 1) 1 storeMix).2).2 =
      storeMix :=
  (toggle_twice_restores 1 1 storeMix (by decide)).1

/-- Claim C10: the task_list of the two application copies is
extensionally equal: the same page items, page number, total page count
and next/previous flags for every store, identity and combination of the
filter, sort, query and page parameters. -/
theorem task_list_copies_equal (store : List Task) (u : Nat)
    (fs so q : String) (p : PageParam) :
    DjangoTaskify.task_list store u fs so q p =
      Taskify.task_list store u fs so q p := rfl

end Tasks
